import Mathlib

/-!
Shallow embedding of the Premarket-Trading repository (strategy logic,
execution engine, and the per-symbol state-machine drivers) in Lean 4,
together with proofs settling the specification claims.

Modelling conventions:
* Python floats are modelled as `ℚ` (exact rational arithmetic).
* `datetime` values are modelled as `Int` seconds since an arbitrary epoch;
  a time-of-day is the value modulo 86400.
* Python `sorted` on a list of numbers is modelled by an insertion sort
  (`pySorted`), which produces the same ascending ordering.
* `int(x)` (Python truncation toward zero) is modelled by `pyInt`.
* `round(x, 2)` (Python round-half-to-even at 2 decimals) is `pyRound2`.
* Wall-clock reads (`datetime.now()`) become an explicit `now : Int`
  parameter of the functions that perform them.
-/

namespace Premarket

/-- `conditions.Bar`: one OHLCV bar.  The Python field `open` is a Lean
keyword, so it is rendered `opn`. -/
structure Bar where
  date : Int
  opn : ℚ
  high : ℚ
  low : ℚ
  close : ℚ
  volume : ℚ
  average : ℚ := 0
  deriving Repr, DecidableEq

/-- `conditions.MarketData`: mutable per-symbol snapshot.  `bid_time` /
`ask_time` are the quote timestamps set by `backtest_scanner.add_bar_1s`
(in milliseconds, for comparison against `QUOTE_STALE_MS`). -/
structure MarketData where
  symbol : String := ""
  price : ℚ := 0
  timestamp : Int := 0
  vwap : ℚ := 0
  bid : ℚ := 0
  ask : ℚ := 0
  bid_time : Int := 0
  ask_time : Int := 0
  volume : ℚ := 0
  bars_1s : List Bar := []
  bars_5s : List Bar := []
  med_vol_1s : ℚ := 0
  med_vol_5s : ℚ := 0
  med_range_5s : ℚ := 0
  deriving Repr, DecidableEq

/-! ## strategy_config.py constants -/

/-- `PREMARKET_WINDOWS` = [("04:00:00", "09:30:00")], rendered as
seconds-of-day intervals (string comparison on zero-padded "HH:MM:SS"
coincides with numeric comparison on seconds-of-day). -/
def PREMARKET_WINDOWS : List (Int × Int) := [(4 * 3600, 9 * 3600 + 30 * 60)]

def MAX_SPREAD_PCT : ℚ := 25 / 10
def SPREAD_REL_MULT : ℚ := 25 / 100
def QUOTE_STALE_MS : Int := 1000
def SHOCK_RET_1S : ℚ := 2 / 100
def SHOCK_VOL_MULT_1S : ℚ := 3
def SHOCK_RET_2S : ℚ := 3 / 100
def SHOCK_VOL_MULT_2S : ℚ := 3
def CONFIRM_RET_5S : ℚ := 4 / 100
def CONFIRM_VOL_MULT_5S : ℚ := 5
def RANGE_MULT_5S : ℚ := 2
def NO_FADE_FRAC : ℚ := 5 / 10
def ENTRY_OFFSET : ℚ := 1 / 100
def STOP_PCT : ℚ := 5 / 100
def STOP_RANGE_MULT : ℚ := 5 / 10
def TP_R_MULT : ℚ := 15 / 10
def FAIL_RET_1S : ℚ := 2 / 100
def TIME_STOP_SECONDS : Int := 20
def MIN_PNL_AT_TIME : ℚ := 2 / 10
def MAX_CONSECUTIVE_LOSSES : Nat := 2
def ARM_TIMEOUT_SECONDS : ℚ := 3
def INVESTMENT_PER_TRADE : ℚ := 500
def COMMISSION_PER_SHARE : ℚ := 5 / 1000
def COMMISSION_MIN : ℚ := 1
def COMMISSION_PERCENT_LOW : ℚ := 5 / 1000
def WARMUP_MIN_1S_BARS : Nat := 120
def WARMUP_MIN_5S_BARS : Nat := 24
def WARMUP_FALLBACK_SECONDS : Int := 180

/-- `config.BYPASS_TIME_WINDOW` is not defined in `strategy_config.py`;
`getattr(config, 'BYPASS_TIME_WINDOW', False)` therefore yields `False`. -/
def BYPASS_TIME_WINDOW : Bool := false

/-- `config.BYPASS_VWAP_CHECK` is likewise absent, so the getattr default
`False` applies. -/
def BYPASS_VWAP_CHECK : Bool := false

/-! ## Python helpers -/

/-- Insert into an ascending list (helper for `pySorted`). -/
def insertAsc (x : ℚ) : List ℚ → List ℚ
  | [] => [x]
  | y :: ys => if x ≤ y then x :: y :: ys else y :: insertAsc x ys

/-- Python `sorted` on a list of numbers: ascending order. -/
def pySorted : List ℚ → List ℚ
  | [] => []
  | x :: xs => insertAsc x (pySorted xs)

/-- Python `int(q)`: truncation toward zero. -/
def pyInt (q : ℚ) : Int := if 0 ≤ q then ⌊q⌋ else -⌊-q⌋

/-- Python `round(q, 2)`: round half to even at two decimal places. -/
def pyRound2 (q : ℚ) : ℚ :=
  let x : ℚ := q * 100
  let f : Int := ⌊x⌋
  let r : ℚ := x - f
  let n : Int :=
    if r < 1 / 2 then f
    else if 1 / 2 < r then f + 1
    else if f % 2 = 0 then f else f + 1
  (n : ℚ) / 100

theorem mem_insertAsc {x y : ℚ} {l : List ℚ} :
    y ∈ insertAsc x l ↔ y = x ∨ y ∈ l := by
  induction l with
  | nil => simp [insertAsc]
  | cons a as ih =>
      by_cases h : x ≤ a
      · simp [insertAsc, h]
      · simp [insertAsc, h, ih]
        tauto

theorem mem_pySorted {y : ℚ} {l : List ℚ} : y ∈ pySorted l ↔ y ∈ l := by
  induction l with
  | nil => simp [pySorted]
  | cons a as ih => simp [pySorted, mem_insertAsc, ih]

theorem length_insertAsc (x : ℚ) (l : List ℚ) :
    (insertAsc x l).length = l.length + 1 := by
  induction l with
  | nil => simp [insertAsc]
  | cons a as ih =>
      by_cases h : x ≤ a
      · simp [insertAsc, h]
      · simp [insertAsc, h, ih]

theorem length_pySorted (l : List ℚ) : (pySorted l).length = l.length := by
  induction l with
  | nil => simp [pySorted]
  | cons a as ih => simp [pySorted, length_insertAsc, ih]

/-! ## conditions.StrategyLogic -/

/-- `StrategyLogic.is_in_window(dt)`: the time-of-day falls in one of the
configured premarket windows (inclusive at both ends).  The source compares
zero-padded "HH:MM:SS" strings, which is exactly a numeric comparison of
seconds-of-day. -/
def is_in_window (t : Int) : Bool :=
  if BYPASS_TIME_WINDOW then true
  else
    let tod := t % 86400
    PREMARKET_WINDOWS.any (fun w => decide (w.1 ≤ tod) && decide (tod ≤ w.2))

/-- `StrategyLogic.check_shock_1s(data)`.  Formatted audit strings are
abstracted to the constant prefix "Shock"; the constant failure strings are
kept verbatim. -/
def check_shock_1s (data : MarketData) : Bool × String :=
  match data.bars_1s.getLast? with
  | none => (false, "No 1s data")
  | some last_1s =>
    if last_1s.opn = 0 then (false, "Invalid bar: open=0")
    else
      let ret_1s := (last_1s.close - last_1s.opn) / last_1s.opn
      let is_shock := decide (SHOCK_RET_1S ≤ ret_1s) &&
                      decide (SHOCK_VOL_MULT_1S * data.med_vol_1s ≤ last_1s.volume)
      let is_shock :=
        if !is_shock && decide (2 ≤ data.bars_1s.length) then
          match (data.bars_1s.reverse).get? 1 with
          | some prev_1s =>
            if 0 < prev_1s.opn then
              let ret_2s := (last_1s.close - prev_1s.opn) / prev_1s.opn
              let vol_2s := last_1s.volume + prev_1s.volume
              decide (SHOCK_RET_2S ≤ ret_2s) &&
              decide (SHOCK_VOL_MULT_2S * data.med_vol_1s ≤ vol_2s)
            else is_shock
          | none => is_shock
        else is_shock
      (is_shock, "Shock")

/-- `StrategyLogic.check_confirm_5s(data)`.  Formatted audit strings are
abstracted to the constant prefix "Confirm". -/
def check_confirm_5s (data : MarketData) : Bool × String :=
  match data.bars_5s.getLast? with
  | none => (false, "No 5s data")
  | some last_5s =>
    if last_5s.opn = 0 then (false, "Invalid bar: open=0")
    else
      let ret_5s := (last_5s.close - last_5s.opn) / last_5s.opn
      let range_5s := last_5s.high - last_5s.low
      let is_confirm := decide (CONFIRM_RET_5S ≤ ret_5s) &&
                        decide (CONFIRM_VOL_MULT_5S * data.med_vol_5s ≤ last_5s.volume) &&
                        decide (RANGE_MULT_5S * data.med_range_5s ≤ range_5s)
      let is_confirm :=
        if !BYPASS_VWAP_CHECK then
          if data.price < 105 / 100 * data.vwap then false else is_confirm
        else is_confirm
      (is_confirm, "Confirm")

/-- `StrategyLogic.check_no_fade(data)`. -/
def check_no_fade (data : MarketData) : Bool :=
  match data.bars_5s.getLast? with
  | none => false
  | some last_5s =>
    let range_5s := last_5s.high - last_5s.low
    if range_5s = 0 then true
    else
      let pullback := last_5s.high - data.price
      decide (pullback ≤ (1 - NO_FADE_FRAC) * range_5s)

/-- `StrategyLogic.check_exec_safety(data)`.  Formatted audit strings are
abstracted to constant prefixes.  Note the source computes the spread as a
fraction of the **bid** (not of the midpoint) and never reads the quote
timestamps. -/
def check_exec_safety (data : MarketData) : Bool × String :=
  if data.bid = 0 || data.ask = 0 then (false, "No bid/ask")
  else
    let spread_pct := (data.ask - data.bid) / data.bid
    if MAX_SPREAD_PCT / 100 < spread_pct then (false, "Spread too wide")
    else
      match data.bars_5s.getLast? with
      | some last_5s =>
        if 0 < last_5s.opn then
          let ret_5s_abs := |(last_5s.close - last_5s.opn) / last_5s.opn|
          if 0 < ret_5s_abs ∧ SPREAD_REL_MULT * ret_5s_abs < spread_pct then
            (false, "Spread too wide rel to move")
          else (true, "EXEC_OK")
        else (true, "EXEC_OK")
      | none => (true, "EXEC_OK")

/-- The weakness clause of `check_exit` (its block 2, verbatim): the latest
1-second bar, when present and with a positive open, returned at or below
`-FAIL_RET_1S`. -/
def weakness_1s (data : MarketData) : Bool :=
  match data.bars_1s.getLast? with
  | some last_1s =>
    if 0 < last_1s.opn then
      decide ((last_1s.close - last_1s.opn) / last_1s.opn ≤ -FAIL_RET_1S)
    else false
  | none => false

/-- `StrategyLogic.check_exit(data, entry_price, stop_price, entry_time, R)`.
The wall-clock read `datetime.now()` in the time-stop branch is the explicit
parameter `now`. -/
def check_exit (data : MarketData) (entry_price stop_price : ℚ)
    (entry_time : Int) (R : ℚ) (now : Int) : Bool × String :=
  if data.price ≤ 0 then (false, "")
  else if data.price ≤ stop_price then (true, "HARD_STOP")
  else
    if weakness_1s data then (true, "WEAKNESS_EXIT")
    else
      let target := entry_price + TP_R_MULT * R
      if target ≤ data.price then (true, "TAKE_PROFIT")
      else
        let elapsed := now - entry_time
        if TIME_STOP_SECONDS ≤ elapsed then
          let pnl_r := if 0 < R then (data.price - entry_price) / R else 0
          if pnl_r < MIN_PNL_AT_TIME then (true, "TIME_STOP")
          else (false, "")
        else (false, "")

/-- Median step shared by `calculate_medians`: Python's
`l[mid] if odd else (l[mid-1]+l[mid])/2` on an already-sorted list. -/
def medOfSorted (l : List ℚ) : ℚ :=
  let mid := l.length / 2
  if l.length % 2 ≠ 0 then l.getD mid 0
  else (l.getD (mid - 1) 0 + l.getD mid 0) / 2

/-- `StrategyLogic.calculate_medians(bars, window_seconds)`.  The
`window_seconds` parameter is accepted (default 120 in the source) but —
exactly as in the source — never used. -/
def calculate_medians (bars : List Bar) (window_seconds : Int := 120) : ℚ × ℚ × ℚ :=
  if bars.isEmpty then (1, 1 / 100, 0)
  else
    let volumes := pySorted (bars.map (·.volume))
    if volumes.isEmpty then (1, 1 / 100, 0)
    else
      let med_vol := medOfSorted volumes
      let ranges := pySorted (bars.map (fun b => b.high - b.low))
      if ranges.isEmpty then (max 1 med_vol, 1 / 100, 0)
      else
        let med_range := medOfSorted ranges
        (max 1 med_vol, max (1 / 1000) med_range, 0)

/-! ## execution_engine.ExecutionEngine

Python `dict`s keyed by symbol / order id are modelled as association
lists with an update-or-append write (`setKey`) and a key-delete
(`delKey`), matching `d[k] = v` and `del d[k]`. -/

/-- Association-list lookup (Python `d.get(k)` / `k in d`). -/
def alookup {β : Type} : List (Int × β) → Int → Option β
  | [], _ => none
  | (k, v) :: l, a => if a = k then some v else alookup l a

/-- Association-list lookup with `String` keys. -/
def slookup {β : Type} : List (String × β) → String → Option β
  | [], _ => none
  | (k, v) :: l, a => if a = k then some v else slookup l a

/-- Python `d[k] = v`: replace in place if present, else append. -/
def ssetKey {β : Type} (l : List (String × β)) (k : String) (v : β) : List (String × β) :=
  if (slookup l k).isSome then l.map (fun p => if p.1 = k then (k, v) else p)
  else l ++ [(k, v)]

/-- Python `d[k] = v` for `Int` keys. -/
def isetKey {β : Type} (l : List (Int × β)) (k : Int) (v : β) : List (Int × β) :=
  if (alookup l k).isSome then l.map (fun p => if p.1 = k then (k, v) else p)
  else l ++ [(k, v)]

/-- One tracked position (`self.positions[symbol]` dict).  The
`actual_entry_price` key is only added once the parent order fills, hence
`Option`; reads use `pos.get('actual_entry_price', pos['entry_price'])`. -/
structure Position where
  entry_price : ℚ
  shares : Int
  tp_price : ℚ
  sl_price : ℚ
  parent_id : Int
  tp_id : Int
  sl_id : Int
  status : String
  actual_entry_price : Option ℚ := none
  time : Int
  deriving Repr, DecidableEq

/-- One entry of `self.trade_history`. -/
inductive TradeRecord where
  | failed (symbol reason : String) (entry_price : ℚ) (time : Int)
  | closed (symbol exit_type : String) (entry_price exit_price : ℚ)
      (shares : Int) (time : Int)
  deriving Repr, DecidableEq

/-- Observable content of a `tws_app.placeOrder` call made by the engine. -/
structure PlacedOrder where
  orderId : Int
  action : String
  orderType : String
  totalQuantity : Int
  lmtPrice : Option ℚ := none
  auxPrice : Option ℚ := none
  parentId : Option Int := none
  transmit : Bool
  deriving Repr, DecidableEq

/-- The engine's mutable state (the `tws_app` collaborator is abstracted to
the ghost log `placed` of orders it was asked to place, plus
`next_order_id`).  Constructor defaults follow
`ExecutionEngine.__init__`. -/
structure ExecutionEngine where
  account : String := ""
  tp_pct : ℚ := 1
  sl_pct : ℚ := 10
  investment_per_trade : ℚ := 1000
  positions : List (String × Position) := []
  order_to_symbol : List (Int × String) := []
  trade_history : List TradeRecord := []
  blacklist : List String := []
  next_order_id : Int := 1
  placed : List PlacedOrder := []
  deriving Repr, DecidableEq

/-- `ExecutionEngine._cleanup_position`: drop the symbol's position and every
order-id mapping pointing at it. -/
def _cleanup_position (s : ExecutionEngine) (symbol : String) : ExecutionEngine :=
  if (slookup s.positions symbol).isSome then
    { s with positions := s.positions.filter (fun p => p.1 ≠ symbol),
             order_to_symbol := s.order_to_symbol.filter (fun p => p.2 ≠ symbol) }
  else s

/-- `ExecutionEngine._on_order_status(orderId, status, filled, remaining,
avgFillPrice, parentId)`.  `now` stands for the `datetime.now()` reads used
to stamp trade records.  The three `if` blocks of the source run in
sequence on the same locally captured `pos`; the `filled` and `remaining`
arguments are never read by the source, and likewise here. -/
def _on_order_status (s : ExecutionEngine) (orderId : Int) (status : String)
    (filled remaining avgFillPrice : ℚ) (parentId : Int) (now : Int) :
    ExecutionEngine :=
  match alookup s.order_to_symbol orderId with
  | none => s
  | some symbol =>
    match slookup s.positions symbol with
    | none => s
    | some pos =>
      -- Block 1: parent fill opens the position.
      let fire1 := orderId = pos.parent_id ∧ status = "Filled" ∧ pos.status ≠ "OPEN"
      let pos1 := if fire1 then
          { pos with status := "OPEN", actual_entry_price := some avgFillPrice }
        else pos
      let s1 := if fire1 then { s with positions := ssetKey s.positions symbol pos1 }
        else s
      -- Block 2: rejection/cancellation while still SUBMITTED discards.
      let s2 :=
        if status = "Inactive" ∨ status = "Cancelled" ∨ status = "ApiCancelled" then
          if pos1.status = "SUBMITTED" then
            _cleanup_position
              { s1 with trade_history := s1.trade_history ++
                  [.failed symbol status pos1.entry_price now] } symbol
          else s1
        else s1
      -- Block 3: a filled TP/SL closes the position and records the trade.
      if (orderId = pos1.tp_id ∨ orderId = pos1.sl_id) ∧ status = "Filled" then
        let exit_type := if orderId = pos1.tp_id then "TP" else "SL"
        _cleanup_position
          { s2 with trade_history := s2.trade_history ++
              [.closed symbol exit_type (pos1.actual_entry_price.getD pos1.entry_price)
                avgFillPrice pos1.shares now] } symbol
      else s2

/-- `ExecutionEngine._on_tws_error`: error code 201 blacklists the symbol
mapped by the request id and discards a still-SUBMITTED position as FAILED.
The `errorString[:30]` slice in the recorded reason is kept abstract as the
full string prefixed as in the source. -/
def _on_tws_error (s : ExecutionEngine) (reqId errorCode : Int)
    (errorString : String) (now : Int) : ExecutionEngine :=
  if errorCode = 201 then
    match alookup s.order_to_symbol reqId with
    | none => s
    | some symbol =>
      let s := { s with blacklist := if symbol ∈ s.blacklist then s.blacklist
                                     else s.blacklist ++ [symbol] }
      match slookup s.positions symbol with
      | some pos =>
        if pos.status = "SUBMITTED" then
          _cleanup_position
            { s with trade_history := s.trade_history ++
                [.failed symbol ("REJECTED: " ++ errorString) pos.entry_price now] } symbol
        else s
      | none => s
  else s

/-- `ExecutionEngine.execute_trade(symbol, entry_price)`: bracket-order
entry.  Returns the Python return value paired with the updated engine
state; `now` stands for the `datetime.now()` stamp on the new position.
Note the source returns `True` (without submitting anything) when the
symbol already has a tracked position. -/
def execute_trade (s : ExecutionEngine) (symbol : String) (entry_price : ℚ)
    (now : Int) : Bool × ExecutionEngine :=
  if (slookup s.positions symbol).isSome then (true, s)
  else if symbol ∈ s.blacklist then (false, s)
  else
    let shares := pyInt (s.investment_per_trade / entry_price)
    if shares ≤ 0 then (false, s)
    else
      let tp_price := pyRound2 (entry_price * (1 + s.tp_pct / 100))
      let sl_price := pyRound2 (entry_price * (1 - s.sl_pct / 100))
      let parent_id := s.next_order_id
      let parent : PlacedOrder :=
        { orderId := parent_id, action := "BUY", orderType := "MKT",
          totalQuantity := shares, transmit := false }
      let tp_order : PlacedOrder :=
        { orderId := parent_id + 1, action := "SELL", orderType := "LMT",
          totalQuantity := shares, lmtPrice := some tp_price,
          parentId := some parent_id, transmit := false }
      let sl_order : PlacedOrder :=
        { orderId := parent_id + 2, action := "SELL", orderType := "STP",
          totalQuantity := shares, auxPrice := some sl_price,
          parentId := some parent_id, transmit := true }
      let pos : Position :=
        { entry_price := entry_price, shares := shares, tp_price := tp_price,
          sl_price := sl_price, parent_id := parent_id, tp_id := parent_id + 1,
          sl_id := parent_id + 2, status := "SUBMITTED", time := now }
      (true,
        { s with next_order_id := s.next_order_id + 3,
                 positions := ssetKey s.positions symbol pos,
                 order_to_symbol :=
                   isetKey (isetKey (isetKey s.order_to_symbol parent_id symbol)
                     (parent_id + 1) symbol) (parent_id + 2) symbol,
                 placed := s.placed ++ [parent, tp_order, sl_order] })

/-- `ExecutionEngine.is_position_active(symbol)`. -/
def is_position_active (s : ExecutionEngine) (symbol : String) : Bool :=
  (slookup s.positions symbol).isSome

/-! ## realtime_runner.SymbolMonitor -/

/-- A Python runtime error surfaced by a state-machine step. -/
inductive PyErr where
  | attributeError (name : String)
  | typeError (msg : String)
  deriving Repr, DecidableEq

/-- The method names defined by `execution_engine.ExecutionEngine` (its
`def` statements).  Attribute lookup of any other name on an engine
instance raises `AttributeError`. -/
def ExecutionEngineMethods : List String :=
  ["__init__", "_create_contract", "_on_tws_error", "_on_order_status",
   "_cleanup_position", "execute_trade", "is_position_active",
   "close_all_positions", "get_active_positions_detailed",
   "get_trade_history", "get_blacklist"]

/-- Whether `executor.<name>` resolves on an `ExecutionEngine` instance. -/
def hasEngineMethod (name : String) : Bool :=
  ExecutionEngineMethods.contains name

/-- Shape of the position dict `realtime_runner._process_state_machine`
expects back from `executor.get_position` (keys it reads). -/
structure RunnerPos where
  status : String
  actual_entry_price : ℚ
  stop_price : ℚ
  entry_time : Int
  R : ℚ
  deriving Repr, DecidableEq

/-- Hypothetical behaviours for the executor methods the runner calls.
`ExecutionEngine` defines none of them; the oracle only gives the dead
branches of the embedding something to call. -/
structure ExecutorOracle where
  get_position : String → Option RunnerPos
  execute_entry : String → ℚ → ℚ → ℚ → Bool

/-- `realtime_runner.SymbolMonitor` (the fields `_process_state_machine`
touches). -/
structure SymbolMonitor where
  symbol : String
  bars_1s : List Bar := []
  bars_5s : List Bar := []
  state : String := "WARMUP"
  arm_time : Int := 0
  last_reason : String := "WARMING_UP"
  warmup_start_time : Int := 0
  market_data : MarketData := {}
  deriving Repr, DecidableEq

/-- Lines 138–186 of `realtime_runner._process_state_machine` (everything
after the warm-up block).  Every `self.executor.<name>` access goes through
`hasEngineMethod`; a missing attribute raises `AttributeError` and leaves
the monitor as mutated so far.  `now` models the `datetime.now()` reads. -/
def _psm_after_warmup (m : SymbolMonitor) (ex : ExecutorOracle) (now : Int) :
    SymbolMonitor × Option PyErr :=
  if hasEngineMethod "get_position" then
    let pos := ex.get_position m.symbol
    let m :=
      match pos with
      | some p =>
        if p.status = "IN_TRADE" then { m with state := "IN_TRADE" } else m
      | none =>
        if m.state = "ARMED" then
          if ARM_TIMEOUT_SECONDS < ((now - m.arm_time : Int) : ℚ) then
            { m with state := "IDLE", last_reason := "ARM_TIMEOUT" }
          else m
        else if m.state ≠ "SUBMITTING" ∧ m.state ≠ "WARMUP" then
          { m with state := "IDLE" }
        else m
    if m.state = "IDLE" then
      if is_in_window m.market_data.timestamp then
        if (check_shock_1s m.market_data).1 then
          ({ m with state := "ARMED", arm_time := now, last_reason := "SHOCK" }, none)
        else (m, none)
      else (m, none)
    else if m.state = "ARMED" then
      let confirm_ok := (check_confirm_5s m.market_data).1
      let safety_ok := (check_exec_safety m.market_data).1
      let no_fade := check_no_fade m.market_data
      if confirm_ok ∧ safety_ok ∧ no_fade then
        let md := m.market_data
        let stop_dist := max (max (md.ask - md.bid) (STOP_RANGE_MULT * md.med_range_5s))
          (md.price * STOP_PCT)
        let entry_price := md.ask
        let stop_price := entry_price - stop_dist
        let R := entry_price - stop_price
        if hasEngineMethod "execute_entry" then
          if ex.execute_entry m.symbol entry_price stop_price R then
            ({ m with state := "SUBMITTING", last_reason := "CONFIRMED" }, none)
          else (m, none)
        else (m, some (.attributeError "execute_entry"))
      else (m, none)
    else if m.state = "IN_TRADE" then
      match ex.get_position m.symbol with
      | some p =>
        let (exit_triggered, reason) :=
          check_exit m.market_data p.actual_entry_price p.stop_price
            p.entry_time p.R now
        if exit_triggered then
          if hasEngineMethod "execute_exit" then
            ({ m with state := "IDLE", last_reason := "EXIT_" ++ reason }, none)
          else (m, some (.attributeError "execute_exit"))
        else (m, none)
      | none => (m, some (.typeError "NoneType is not subscriptable"))
    else (m, none)
  else (m, some (.attributeError "get_position"))

/-- `realtime_runner.SymbolMonitor._process_state_machine`.  First refreshes
the snapshot's bar lists and medians, then runs the warm-up block
(lines 126–136), then the remainder (`_psm_after_warmup`). -/
def _process_state_machine (m : SymbolMonitor) (ex : ExecutorOracle)
    (now : Int) : SymbolMonitor × Option PyErr :=
  let md := { m.market_data with bars_1s := m.bars_1s, bars_5s := m.bars_5s }
  let mv1 := (calculate_medians md.bars_1s 120).1
  let m5 := calculate_medians md.bars_5s 120
  let md := { md with med_vol_1s := mv1, med_vol_5s := m5.1,
                      med_range_5s := m5.2.1 }
  let m := { m with market_data := md }
  if m.state = "WARMUP" then
    let bars_ok := WARMUP_MIN_1S_BARS ≤ m.bars_1s.length ∧
                   WARMUP_MIN_5S_BARS ≤ m.bars_5s.length
    let time_ok := WARMUP_FALLBACK_SECONDS ≤ now - m.warmup_start_time
    if bars_ok ∨ time_ok then
      _psm_after_warmup
        { m with state := "IDLE", last_reason := "WARMUP_COMPLETE" } ex now
    else (m, none)
  else _psm_after_warmup m ex now

/-! ## backtest_scanner.BacktestEngine -/

/-- One entry of `BacktestEngine.trades`. -/
structure BtTrade where
  symbol : String
  entry_time : Int
  exit_time : Int
  entry_price : ℚ
  exit_price : ℚ
  shares : Int
  investment : ℚ
  gross_pnl : ℚ
  commission : ℚ
  pnl : ℚ
  pnl_pct : ℚ
  reason : String
  deriving Repr, DecidableEq

/-- Commission on the entry leg, lines 186–190 of
`backtest_scanner._process_logic` (tier chosen by `entry_price`). -/
def entry_commission (entry_price : ℚ) (shares : Int) : ℚ :=
  if 1 ≤ entry_price then max COMMISSION_MIN ((shares : ℚ) * COMMISSION_PER_SHARE)
  else (entry_price * shares) * COMMISSION_PERCENT_LOW

/-- Commission on the exit leg, lines 186–191 (same tier selector
`entry_price`; the sub-$1 tier uses the exit notional). -/
def exit_commission (entry_price exit_price : ℚ) (shares : Int) : ℚ :=
  if 1 ≤ entry_price then max COMMISSION_MIN ((shares : ℚ) * COMMISSION_PER_SHARE)
  else (exit_price * shares) * COMMISSION_PERCENT_LOW

/-- `backtest_scanner.BacktestEngine` (fields `_process_logic` touches). -/
structure BacktestEngine where
  symbol : String
  capital : ℚ := 10000
  market_data : MarketData := {}
  trades : List BtTrade := []
  state : String := "IDLE"
  entry_price : ℚ := 0
  stop_price : ℚ := 0
  entry_time : Int := 0
  R : ℚ := 0
  shares : Int := 0
  arm_time : Int := 0
  deriving Repr, DecidableEq

/-- `backtest_scanner.BacktestEngine._process_logic`, instrumented with a
ghost list naming each state-transition check evaluated during the call
("SHOCK_1S", "ARM_TIMEOUT", "CONFIRM_5S", "EXIT").  `now` models the
`datetime.now()` read inside `check_exit`'s time stop.  The IDLE fallback
that builds a mock 1-second bar reads `last_5s.timestamp`, an attribute
`conditions.Bar` does not define, so that branch raises
`AttributeError`. -/
def _process_logic (e : BacktestEngine) (now : Int) :
    BacktestEngine × List String × Option PyErr :=
  if e.state = "IDLE" then
    if is_in_window e.market_data.timestamp then
      if e.market_data.bars_1s.isEmpty ∧ ¬ e.market_data.bars_5s.isEmpty then
        (e, [], some (.attributeError "timestamp"))
      else
        if (check_shock_1s e.market_data).1 then
          ({ e with state := "ARMED", arm_time := e.market_data.timestamp },
           ["SHOCK_1S"], none)
        else (e, ["SHOCK_1S"], none)
    else (e, [], none)
  else if e.state = "ARMED" then
    let elapsed := e.market_data.timestamp - e.arm_time
    if ARM_TIMEOUT_SECONDS < (elapsed : ℚ) then
      ({ e with state := "IDLE" }, ["ARM_TIMEOUT"], none)
    else
      let confirm_ok := (check_confirm_5s e.market_data).1
      let no_fade := check_no_fade e.market_data
      if confirm_ok ∧ no_fade then
        let entry_price := e.market_data.ask
        let stop_dist := max (max (1 / 100) (STOP_RANGE_MULT * e.market_data.med_range_5s))
          (entry_price * STOP_PCT)
        let stop_price := entry_price - stop_dist
        let R := entry_price - stop_price
        let shares := pyInt (INVESTMENT_PER_TRADE / entry_price)
        let e' := { e with entry_price := entry_price, stop_price := stop_price,
                           R := R, entry_time := e.market_data.timestamp,
                           shares := shares }
        if 0 < shares then
          ({ e' with state := "IN_TRADE" }, ["ARM_TIMEOUT", "CONFIRM_5S"], none)
        else (e', ["ARM_TIMEOUT", "CONFIRM_5S"], none)
      else (e, ["ARM_TIMEOUT", "CONFIRM_5S"], none)
  else if e.state = "IN_TRADE" then
    let er :=
      check_exit e.market_data e.entry_price e.stop_price e.entry_time e.R now
    if er.1 then
      let exit_price := e.market_data.bid
      let gross_pnl := (exit_price - e.entry_price) * e.shares
      let investment := e.entry_price * e.shares
      let total_commission := entry_commission e.entry_price e.shares +
        exit_commission e.entry_price exit_price e.shares
      let net_pnl := gross_pnl - total_commission
      let pnl_pct := if 0 < investment then net_pnl / investment * 100 else 0
      ({ e with
          trades := e.trades ++
            [{ symbol := e.symbol, entry_time := e.entry_time,
               exit_time := e.market_data.timestamp,
               entry_price := e.entry_price, exit_price := exit_price,
               shares := e.shares, investment := investment,
               gross_pnl := gross_pnl, commission := total_commission,
               pnl := net_pnl, pnl_pct := pnl_pct, reason := er.2 }],
          capital := e.capital + net_pnl,
          state := "IDLE" }, ["EXIT"], none)
    else (e, ["EXIT"], none)
  else (e, [], none)

/-! ## Association-list lemmas -/

theorem slookup_filter_self {β : Type} (l : List (String × β)) (k : String) :
    slookup (l.filter (fun p => p.1 ≠ k)) k = none := by
  induction l with
  | nil => rfl
  | cons a as ih =>
      by_cases h : a.1 = k
      · simpa [List.filter_cons, h] using ih
      · have h' : ¬ k = a.1 := fun hh => h hh.symm
        simpa [List.filter_cons, h, slookup, h'] using ih

theorem slookup_eq_none_of_not_mem {β : Type} (l : List (String × β)) (k : String)
    (h : k ∉ l.map Prod.fst) : slookup l k = none := by
  induction l with
  | nil => rfl
  | cons a as ih =>
      simp only [List.map, List.mem_cons] at h
      push_neg at h
      simp [slookup, h.1, ih h.2]

theorem alookup_eq_none_of_not_mem {β : Type} (l : List (Int × β)) (k : Int)
    (h : k ∉ l.map Prod.fst) : alookup l k = none := by
  induction l with
  | nil => rfl
  | cons a as ih =>
      simp only [List.map, List.mem_cons] at h
      push_neg at h
      simp [alookup, h.1, ih h.2]

theorem alookup_filter_none {β : Type} (l : List (Int × β)) (k : Int)
    (q : Int × β → Bool) (h : alookup l k = none) :
    alookup (l.filter q) k = none := by
  induction l with
  | nil => rfl
  | cons a as ih =>
      by_cases hk : k = a.1
      · simp [alookup, hk] at h
      · have h' : alookup as k = none := by simpa [alookup, hk] using h
        rcases hq : q a with _ | _
        · simpa [List.filter_cons, hq] using ih h'
        · simpa [List.filter_cons, hq, alookup, hk] using ih h'

/-- After filtering out all pairs whose value is `v`, a key whose (unique)
binding carried value `v` no longer resolves. -/
theorem alookup_filter_value (l : List (Int × String)) (k : Int) (v : String)
    (hnd : (l.map Prod.fst).Nodup) (h : alookup l k = some v) :
    alookup (l.filter (fun p => p.2 ≠ v)) k = none := by
  induction l with
  | nil => simp [alookup] at h
  | cons a as ih =>
      simp only [List.map_cons, List.nodup_cons] at hnd
      by_cases hk : k = a.1
      · have hv : a.2 = v := by simpa [alookup, hk] using h
        have hrest : alookup as k = none :=
          alookup_eq_none_of_not_mem _ _ (hk ▸ hnd.1)
        simpa [List.filter_cons, hv] using alookup_filter_none as k _ hrest
      · have h' : alookup as k = some v := by simpa [alookup, hk] using h
        by_cases hv : a.2 = v
        · simpa [List.filter_cons, hv] using ih hnd.2 h'
        · simpa [List.filter_cons, hv, alookup, hk] using ih hnd.2 h'

theorem slookup_map_update {β : Type} (l : List (String × β)) (k : String) (v : β)
    (h : (slookup l k).isSome) :
    slookup (l.map (fun p => if p.1 = k then (k, v) else p)) k = some v := by
  induction l with
  | nil => simp [slookup] at h
  | cons a as ih =>
      simp only [List.map_cons]
      by_cases hk : a.1 = k
      · rw [if_pos hk]
        simp [slookup]
      · rw [if_neg hk]
        have hne : ¬ k = a.1 := fun hh => hk hh.symm
        have h' : (slookup as k).isSome := by simpa [slookup, hne] using h
        simpa [slookup, hne] using ih h'

theorem slookup_append_single {β : Type} (l : List (String × β)) (k : String) (v : β)
    (h : slookup l k = none) : slookup (l ++ [(k, v)]) k = some v := by
  induction l with
  | nil => simp [slookup]
  | cons a as ih =>
      by_cases hk : k = a.1
      · simp [slookup, hk] at h
      · simp only [List.cons_append, slookup, hk, if_false] at h ⊢
        exact ih h

theorem slookup_ssetKey_self {β : Type} (l : List (String × β)) (k : String) (v : β) :
    slookup (ssetKey l k v) k = some v := by
  unfold ssetKey
  rcases h : slookup l k with _ | w
  · simpa [h] using slookup_append_single l k v h
  · simpa [h] using slookup_map_update l k v (by simp [h])

/-! ## Claim C4: calculate_medians -/

/-- Follows the spec's words (§4.2), not the source, for comparison with
`calculate_medians`: restrict to bars within `window_seconds` of the newest
bar's timestamp, fall back to the most recent 10 raw bars when fewer than
5 remain. -/
def windowSample (bars : List Bar) (window_seconds : Int) : List Bar :=
  match bars.getLast? with
  | none => []
  | some newest =>
    let within := bars.filter (fun b => decide (newest.date - window_seconds ≤ b.date))
    if within.length < 5 then bars.drop (bars.length - 10) else within

/-- Median as the spec words it: sort, take the middle value, or the mean
of the two middle values for an even count. -/
def medianSpec (l : List ℚ) : ℚ := medOfSorted (pySorted l)

/-- Follows the spec's words (§4.2), not the source: medians of the
windowed/fallback sample, floored at 1.0 and 0.001. -/
def calculate_medians_spec (bars : List Bar) (window_seconds : Int) : ℚ × ℚ :=
  let sample := windowSample bars window_seconds
  (max 1 (medianSpec (sample.map (·.volume))),
   max (1 / 1000) (medianSpec (sample.map (fun b => b.high - b.low))))

/-- A flat bar carrying only a timestamp and a volume. -/
def volBar (t : Int) (v : ℚ) : Bar :=
  { date := t, opn := 1, high := 1, low := 1, close := 1, volume := v, average := 0 }

/-- One stale bar plus five fresh ones: windowing would drop the stale bar. -/
def c4barsA : List Bar :=
  [volBar 0 100, volBar 1000 2, volBar 1001 4, volBar 1002 6, volBar 1003 8,
   volBar 1004 10]

/-- Eleven stale bars plus one fresh one: the spec's fallback would keep
only the most recent 10 raw bars. -/
def c4barsB : List Bar :=
  [volBar 0 1, volBar 0 2, volBar 0 3, volBar 0 4, volBar 0 5, volBar 0 6,
   volBar 0 7, volBar 0 8, volBar 0 9, volBar 0 10, volBar 0 11, volBar 1000 12]

theorem getElem?_getD_zero_of_all_zero (l : List ℚ) (h : ∀ x ∈ l, x = 0)
    (n : Nat) : l[n]?.getD 0 = 0 := by
  rcases lt_or_ge n l.length with hlt | hge
  · rw [List.getElem?_eq_getElem hlt]
    simpa using h _ (List.getElem_mem hlt)
  · rw [List.getElem?_eq_none hge]
    rfl

theorem medOfSorted_all_zero (l : List ℚ) (h : ∀ x ∈ l, x = 0) :
    medOfSorted l = 0 := by
  unfold medOfSorted
  by_cases hpar : l.length % 2 = 0
  · simp [hpar, getElem?_getD_zero_of_all_zero l h]
  · simp [hpar, getElem?_getD_zero_of_all_zero l h]

/-- Claim C4 as stated is false: `calculate_medians` neither filters the
bars to the window nor falls back to the most recent 10 bars — its result
on `c4barsA`/`c4barsB` is the all-bars median, different from the median of
the sample the claim describes (7 vs 6, and 13/2 vs 15/2). -/
theorem calculate_medians_window_counterexample :
    (calculate_medians c4barsA 120).1 = 7 ∧
    (calculate_medians_spec c4barsA 120).1 = 6 ∧
    (calculate_medians c4barsB 120).1 = 13 / 2 ∧
    (calculate_medians_spec c4barsB 120).1 = 15 / 2 := by
  refine ⟨?_, ?_, ?_, ?_⟩ <;>
    norm_num [calculate_medians, calculate_medians_spec, windowSample, medianSpec,
      c4barsA, c4barsB, volBar, pySorted, insertAsc, medOfSorted]

/-- Amended claim C4: `calculate_medians` ignores `window_seconds` and
computes over all supplied bars; on a non-empty list it returns the sorted
median of the volumes and of the ranges (mean of the two middle values for
an even count), floored at 1.0 and 0.001 respectively, and on an all-zero
volume set the volume median is exactly the 1.0 floor (never 0). -/
theorem calculate_medians_all_bars (bars : List Bar) (w₁ w₂ : Int)
    (hne : bars ≠ []) :
    calculate_medians bars w₁ = calculate_medians bars w₂ ∧
    (calculate_medians bars w₁).1 = max 1 (medianSpec (bars.map (·.volume))) ∧
    (calculate_medians bars w₁).2.1 =
      max (1 / 1000) (medianSpec (bars.map (fun b => b.high - b.low))) ∧
    1 ≤ (calculate_medians bars w₁).1 ∧
    (1 : ℚ) / 1000 ≤ (calculate_medians bars w₁).2.1 ∧
    ((∀ b ∈ bars, b.volume = 0) → (calculate_medians bars w₁).1 = 1) := by
  have hEmpty : bars.isEmpty = false := by
    cases bars with
    | nil => exact absurd rfl hne
    | cons a as => rfl
  have hvLen : (pySorted (bars.map (·.volume))).length = bars.length := by
    rw [length_pySorted, List.length_map]
  have hrLen : (pySorted (bars.map (fun b => b.high - b.low))).length = bars.length := by
    rw [length_pySorted, List.length_map]
  have hvEmpty : (pySorted (bars.map (·.volume))).isEmpty = false := by
    rcases hh : pySorted (bars.map (·.volume)) with _ | ⟨x, xs⟩
    · rw [hh] at hvLen
      exact absurd (List.eq_nil_of_length_eq_zero hvLen.symm) hne
    · rw [hh]
      rfl
  have hrEmpty : (pySorted (bars.map (fun b => b.high - b.low))).isEmpty = false := by
    rcases hh : pySorted (bars.map (fun b => b.high - b.low)) with _ | ⟨x, xs⟩
    · rw [hh] at hrLen
      exact absurd (List.eq_nil_of_length_eq_zero hrLen.symm) hne
    · rw [hh]
      rfl
  have hfst : (calculate_medians bars w₁).1 = max 1 (medianSpec (bars.map (·.volume))) := by
    simp [calculate_medians, hEmpty, hvEmpty, hrEmpty, medianSpec]
  have hsnd : (calculate_medians bars w₁).2.1 =
      max (1 / 1000) (medianSpec (bars.map (fun b => b.high - b.low))) := by
    simp [calculate_medians, hEmpty, hvEmpty, hrEmpty, medianSpec]
  refine ⟨rfl, hfst, hsnd, ?_, ?_, ?_⟩
  · rw [hfst]; exact le_max_left _ _
  · rw [hsnd]; exact le_max_left _ _
  · intro hzero
    rw [hfst]
    have : medianSpec (bars.map (·.volume)) = 0 := by
      apply medOfSorted_all_zero
      intro x hx
      rw [mem_pySorted] at hx
      rcases List.mem_map.1 hx with ⟨b, hb, hbx⟩
      rw [← hbx]
      exact hzero b hb
    rw [this]
    exact max_eq_left (by norm_num)

/-- Witness for `calculate_medians_all_bars` at a concrete input. -/
theorem calculate_medians_all_bars_witness :
    calculate_medians [volBar 0 0] 120 = calculate_medians [volBar 0 0] 77 ∧
    (calculate_medians [volBar 0 0] 120).1 = 1 :=
  ⟨(calculate_medians_all_bars [volBar 0 0] 120 77 (by decide)).1,
   (calculate_medians_all_bars [volBar 0 0] 120 77 (by decide)).2.2.2.2.2
     (by decide)⟩

/-! ## Claim C5: check_exit priority order and reasons -/

/-- Exit condition 1 of the spec: hard stop. -/
def hard_stop_cond (d : MarketData) (stop_price : ℚ) : Prop :=
  d.price ≤ stop_price

/-- Exit condition 2 of the spec: latest 1-second bar return at or below
the negative threshold. -/
def weakness_cond (d : MarketData) : Prop :=
  ∃ b, d.bars_1s.getLast? = some b ∧ 0 < b.opn ∧
    (b.close - b.opn) / b.opn ≤ -FAIL_RET_1S

/-- Exit condition 3 of the spec: take profit at `entry + TP_R_MULT·R`. -/
def take_profit_cond (d : MarketData) (entry_price R : ℚ) : Prop :=
  entry_price + TP_R_MULT * R ≤ d.price

/-- Exit condition 4 of the spec: time stop with insufficient R-multiple
P/L. -/
def time_stop_cond (d : MarketData) (entry_price : ℚ) (entry_time : Int)
    (R : ℚ) (now : Int) : Prop :=
  TIME_STOP_SECONDS ≤ now - entry_time ∧
  (if 0 < R then (d.price - entry_price) / R else 0) < MIN_PNL_AT_TIME

theorem weakness_1s_iff (d : MarketData) :
    weakness_1s d = true ↔ weakness_cond d := by
  unfold weakness_1s weakness_cond
  rcases hL : d.bars_1s.getLast? with _ | b
  · simp
  · by_cases hb : 0 < b.opn
    · simp [hb]
    · simp [hb]

/-- A snapshot whose latest 1-second bar dropped 10%: the weakness exit
fires. -/
def c5data : MarketData :=
  { price := 10,
    bars_1s := [{ date := 0, opn := 1, high := 1, low := 9 / 10, close := 9 / 10,
                  volume := 0, average := 0 }] }

/-- Claim C5 as stated is false in its reason vocabulary: the weakness exit
returns the string "WEAKNESS_EXIT", which is not among the claim's
{HARD_STOP, WEAKNESS, TAKE_PROFIT, TIME_STOP}. -/
theorem check_exit_reason_counterexample :
    check_exit c5data 100 0 0 1 0 = (true, "WEAKNESS_EXIT") ∧
    "WEAKNESS_EXIT" ∉ (["HARD_STOP", "WEAKNESS", "TAKE_PROFIT", "TIME_STOP"] :
      List String) := by
  constructor
  · norm_num [check_exit, c5data, weakness_1s, FAIL_RET_1S]
  · decide

/-- Amended claim C5: with positive price, `check_exit` evaluates hard stop,
weakness, take profit and time stop in that fixed priority order — the
first condition that holds determines the result and no later condition is
consulted — and the reason is exactly one of HARD_STOP, WEAKNESS_EXIT,
TAKE_PROFIT, TIME_STOP (or "" when no exit triggers). -/
theorem check_exit_priority (d : MarketData) (ep sp : ℚ) (et : Int) (R : ℚ)
    (now : Int) (hp : 0 < d.price) :
    (hard_stop_cond d sp → check_exit d ep sp et R now = (true, "HARD_STOP")) ∧
    (¬ hard_stop_cond d sp → weakness_cond d →
      check_exit d ep sp et R now = (true, "WEAKNESS_EXIT")) ∧
    (¬ hard_stop_cond d sp → ¬ weakness_cond d → take_profit_cond d ep R →
      check_exit d ep sp et R now = (true, "TAKE_PROFIT")) ∧
    (¬ hard_stop_cond d sp → ¬ weakness_cond d → ¬ take_profit_cond d ep R →
      time_stop_cond d ep et R now →
      check_exit d ep sp et R now = (true, "TIME_STOP")) ∧
    (¬ hard_stop_cond d sp → ¬ weakness_cond d → ¬ take_profit_cond d ep R →
      ¬ time_stop_cond d ep et R now →
      check_exit d ep sp et R now = (false, "")) ∧
    ((check_exit d ep sp et R now).2 = "HARD_STOP" ∨
     (check_exit d ep sp et R now).2 = "WEAKNESS_EXIT" ∨
     (check_exit d ep sp et R now).2 = "TAKE_PROFIT" ∨
     (check_exit d ep sp et R now).2 = "TIME_STOP" ∨
     (check_exit d ep sp et R now).2 = "") := by
  have hnp : ¬ d.price ≤ 0 := not_le.2 hp
  unfold check_exit hard_stop_cond take_profit_cond time_stop_cond
  rw [if_neg hnp]
  by_cases h1 : d.price ≤ sp
  · simp [h1]
  · rw [if_neg h1]
    by_cases h2 : weakness_cond d
    · have : weakness_1s d = true := (weakness_1s_iff d).2 h2
      simp [this, h1, h2]
    · have hw : weakness_1s d = false := by
        rcases hb : weakness_1s d with _ | _
        · rfl
        · exact absurd ((weakness_1s_iff d).1 hb) h2
      rw [hw]
      simp only [Bool.false_eq_true, if_false]
      by_cases h3 : ep + TP_R_MULT * R ≤ d.price
      · simp [h3, h1, h2]
      · rw [if_neg h3]
        by_cases h4 : TIME_STOP_SECONDS ≤ now - et
        · by_cases h5 : (if 0 < R then (d.price - ep) / R else 0) < MIN_PNL_AT_TIME
          · simp [h4, h5, h1, h2, h3]
          · simp [h4, h5, h1, h2, h3]
        · simp [h4, h1, h2, h3]

/-- Witness for `check_exit_priority` at a concrete input: price 1 at or
below stop 2 yields the hard stop. -/
theorem check_exit_priority_witness :
    check_exit { price := 1 } 3 2 0 1 0 = (true, "HARD_STOP") :=
  (check_exit_priority { price := 1 } 3 2 0 1 0 (by norm_num)).1 (by
    show (1 : ℚ) ≤ 2
    norm_num)

/-! ## Claim C9: fail-closed behaviour on degenerate input -/

/-- A degenerate snapshot: positive price but no bars and no quotes. -/
def noDataSnap : MarketData := { price := 1 }

/-- A snapshot whose latest 5-second bar has open 0 but a non-degenerate
range, with price at the bar high. -/
def c9fadeData : MarketData :=
  { price := 2,
    bars_5s := [{ date := 0, opn := 0, high := 2, low := 1, close := 2,
                  volume := 0, average := 0 }] }

/-- Claim C9 as stated is false: `check_exit` (one of the listed checks)
returns a trigger on a snapshot with no bars and zero bid/ask, and
`check_no_fade` returns true on a snapshot whose latest bar has open 0. -/
theorem fail_closed_counterexample :
    (check_exit noDataSnap 3 2 0 1 0).1 = true ∧
    noDataSnap.bars_1s = [] ∧ noDataSnap.bars_5s = [] ∧
    noDataSnap.bid = 0 ∧ noDataSnap.ask = 0 ∧
    check_no_fade c9fadeData = true ∧
    (c9fadeData.bars_5s.getLast?).map (·.opn) = some 0 := by
  refine ⟨?_, rfl, rfl, rfl, rfl, ?_, rfl⟩
  · norm_num [check_exit, noDataSnap, weakness_1s]
  · norm_num [check_no_fade, c9fadeData, NO_FADE_FRAC]

/-- Amended claim C9: each check fails closed on the degenerate input it
guards against — shock and confirm return false on missing bars or a
zero-open latest bar, no-fade returns false on missing 5-second bars,
exec-safety returns false on zero bid/ask, and check_exit returns no
trigger on non-positive price; all checks are total functions (never
raise). `check_exit` can still trigger on a positive-price snapshot with
no bars, and `check_no_fade` ignores the bar's open. -/
theorem strategy_checks_fail_closed (d : MarketData) :
    (d.bars_1s = [] → (check_shock_1s d).1 = false) ∧
    (∀ b, d.bars_1s.getLast? = some b → b.opn = 0 →
      (check_shock_1s d).1 = false) ∧
    (d.bars_5s = [] → (check_confirm_5s d).1 = false) ∧
    (∀ b, d.bars_5s.getLast? = some b → b.opn = 0 →
      (check_confirm_5s d).1 = false) ∧
    (d.bars_5s = [] → check_no_fade d = false) ∧
    (d.bid = 0 ∨ d.ask = 0 → (check_exec_safety d).1 = false) ∧
    (∀ ep sp et R now, d.price ≤ 0 → (check_exit d ep sp et R now).1 = false) := by
  refine ⟨?_, ?_, ?_, ?_, ?_, ?_, ?_⟩
  · intro h
    simp [check_shock_1s, h]
  · intro b hb hopn
    simp [check_shock_1s, hb, hopn]
  · intro h
    simp [check_confirm_5s, h]
  · intro b hb hopn
    simp [check_confirm_5s, hb, hopn]
  · intro h
    simp [check_no_fade, h]
  · intro h
    rcases h with h | h <;> simp [check_exec_safety, h]
  · intro ep sp et R now h
    simp [check_exit, h]

/-- Witness for `strategy_checks_fail_closed` at the degenerate snapshot. -/
theorem strategy_checks_fail_closed_witness :
    (check_shock_1s noDataSnap).1 = false ∧
    (check_confirm_5s noDataSnap).1 = false ∧
    check_no_fade noDataSnap = false ∧
    (check_exec_safety noDataSnap).1 = false :=
  ⟨(strategy_checks_fail_closed noDataSnap).1 rfl,
   (strategy_checks_fail_closed noDataSnap).2.2.1 rfl,
   (strategy_checks_fail_closed noDataSnap).2.2.2.2.1 rfl,
   (strategy_checks_fail_closed noDataSnap).2.2.2.2.2.1 (Or.inl rfl)⟩

/-! ## Claim C8: check_exec_safety -/

/-- Fresh quotes, no bars, spread between 2.489% of the midpoint and 2.52%
of the bid: the claim (midpoint denominator) accepts, the source (bid
denominator) rejects. -/
def c8freshData : MarketData :=
  { bid := 1, ask := 2563 / 2500, bid_time := 0, ask_time := 0, timestamp := 0 }

/-- Very stale quotes with a tight spread: the claim (staleness rejection)
rejects, the source accepts. -/
def c8staleData : MarketData :=
  { bid := 1, ask := 101 / 100, bid_time := 0, ask_time := 0,
    timestamp := 10000000 }

/-- Claim C8 as stated is false twice over: the source divides the spread
by the bid (not the bid/ask midpoint), rejecting `c8freshData` although
every rejection condition of the claim fails there, and it never examines
quote age, accepting `c8staleData` although its quotes are far beyond the
staleness threshold. -/
theorem check_exec_safety_counterexample :
    (check_exec_safety c8freshData).1 = false ∧
    c8freshData.bid ≠ 0 ∧ c8freshData.ask ≠ 0 ∧
    (c8freshData.ask - c8freshData.bid) /
      ((c8freshData.bid + c8freshData.ask) / 2) ≤ MAX_SPREAD_PCT / 100 ∧
    c8freshData.bars_5s = [] ∧
    c8freshData.timestamp - c8freshData.bid_time ≤ QUOTE_STALE_MS ∧
    c8freshData.timestamp - c8freshData.ask_time ≤ QUOTE_STALE_MS ∧
    (check_exec_safety c8staleData).1 = true ∧
    QUOTE_STALE_MS < c8staleData.timestamp - c8staleData.bid_time ∧
    QUOTE_STALE_MS < c8staleData.timestamp - c8staleData.ask_time := by
  refine ⟨?_, ?_, ?_, ?_, rfl, ?_, ?_, ?_, ?_, ?_⟩ <;>
    norm_num [check_exec_safety, c8freshData, c8staleData, MAX_SPREAD_PCT,
      QUOTE_STALE_MS]

/-- Amended claim C8: `check_exec_safety` returns true iff bid and ask are
both nonzero, the spread as a fraction of the **bid** is at most the
absolute cap, and the spread does not exceed the configured multiple of the
latest 5-second bar's nonzero move magnitude (when such a bar with positive
open exists); the quote timestamps are never examined. -/
theorem check_exec_safety_characterization (d : MarketData) :
    ((check_exec_safety d).1 = true ↔
      d.bid ≠ 0 ∧ d.ask ≠ 0 ∧
      (d.ask - d.bid) / d.bid ≤ MAX_SPREAD_PCT / 100 ∧
      (∀ b, d.bars_5s.getLast? = some b → 0 < b.opn →
        ¬ (0 < |(b.close - b.opn) / b.opn| ∧
           SPREAD_REL_MULT * |(b.close - b.opn) / b.opn| <
             (d.ask - d.bid) / d.bid))) ∧
    (∀ t₁ t₂, check_exec_safety { d with bid_time := t₁, ask_time := t₂ } =
      check_exec_safety d) := by
  constructor
  · by_cases hb : d.bid = 0
    · simp [check_exec_safety, hb]
    · by_cases ha : d.ask = 0
      · simp [check_exec_safety, hb, ha]
      · by_cases hs : MAX_SPREAD_PCT / 100 < (d.ask - d.bid) / d.bid
        · simp [check_exec_safety, hb, ha, hs, not_le.2 hs]
        · rcases hL : d.bars_5s.getLast? with _ | b
          · simp [check_exec_safety, hb, ha, hs, hL, not_lt.1 hs]
          · by_cases hopn : 0 < b.opn
            · by_cases hrel : 0 < |(b.close - b.opn) / b.opn| ∧
                SPREAD_REL_MULT * |(b.close - b.opn) / b.opn| <
                  (d.ask - d.bid) / d.bid
              · simp only [check_exec_safety, hb, ha, hs, hL, hopn, hrel,
                  not_lt.1 hs]
                simp [hb, ha, not_lt.1 hs, hrel.2, hopn,
                  div_ne_zero_iff.1 (abs_pos.1 hrel.1)]
              · by_cases hnum : b.close - b.opn = 0
                · simp [check_exec_safety, hb, ha, hs, hL, hopn, hnum,
                    not_lt.1 hs]
                · have hx : 0 < |(b.close - b.opn) / b.opn| :=
                    abs_pos.2 (div_ne_zero hnum (ne_of_gt hopn))
                  have hnr : ¬ SPREAD_REL_MULT * |(b.close - b.opn) / b.opn| <
                      (d.ask - d.bid) / d.bid := fun hlt => hrel ⟨hx, hlt⟩
                  simp [check_exec_safety, hb, ha, hs, hL, hopn, hnum,
                    ne_of_gt hopn, hnr, not_lt.1 hnr, not_lt.1 hs]
            · simp [check_exec_safety, hb, ha, hs, hL, hopn, not_lt.1 hs]
  · intro t₁ t₂
    simp [check_exec_safety]

/-- Witness for `check_exec_safety_characterization` at a concrete input. -/
theorem check_exec_safety_characterization_witness :
    (check_exec_safety c8staleData).1 = true :=
  (check_exec_safety_characterization c8staleData).1.2
    ⟨by norm_num [c8staleData], by norm_num [c8staleData],
     by norm_num [c8staleData, MAX_SPREAD_PCT],
     by
       intro b hb
       simp [c8staleData] at hb⟩

/-! ## Claim C10: commission model -/

/-- Claim C10 as stated is false: in the sub-$1 tier the commission is a
bare percentage of notional with no minimum floor — at price $0.50 and 10
shares it is $0.025, below the configured $1 minimum. -/
theorem commission_counterexample :
    entry_commission (1 / 2) 10 = 1 / 40 ∧ (1 / 40 : ℚ) < COMMISSION_MIN := by
  constructor
  · norm_num [entry_commission, COMMISSION_PERCENT_LOW]
  · norm_num [COMMISSION_MIN]

/-- Amended claim C10: for non-negative price and share count, both the
entry and the exit commission are non-negative and non-decreasing in share
count at fixed price; the configured minimum is guaranteed only in the
per-share tier (price ≥ $1); the two legs are symmetric when evaluated at
the same price. -/
theorem commission_properties (p ep : ℚ) (s₁ s₂ : Int)
    (hp : 0 ≤ p) (hep : 0 ≤ ep) (h1 : 0 ≤ s₁) (h12 : s₁ ≤ s₂) :
    0 ≤ entry_commission p s₁ ∧
    entry_commission p s₁ ≤ entry_commission p s₂ ∧
    0 ≤ exit_commission p ep s₁ ∧
    exit_commission p ep s₁ ≤ exit_commission p ep s₂ ∧
    (1 ≤ p → COMMISSION_MIN ≤ entry_commission p s₁ ∧
      COMMISSION_MIN ≤ exit_commission p ep s₁) ∧
    exit_commission p p s₁ = entry_commission p s₁ := by
  have hc : (0 : ℚ) ≤ COMMISSION_PER_SHARE := by norm_num [COMMISSION_PER_SHARE]
  have hlow : (0 : ℚ) ≤ COMMISSION_PERCENT_LOW := by
    norm_num [COMMISSION_PERCENT_LOW]
  have hcast : (s₁ : ℚ) ≤ (s₂ : ℚ) := Int.cast_le.2 h12
  have hcast1 : (0 : ℚ) ≤ (s₁ : ℚ) := by exact_mod_cast h1
  by_cases hp1 : 1 ≤ p
  · refine ⟨?_, ?_, ?_, ?_, fun _ => ⟨?_, ?_⟩, ?_⟩ <;>
      simp only [entry_commission, exit_commission, if_pos hp1]
    · exact le_trans (by norm_num [COMMISSION_MIN]) (le_max_left _ _)
    · exact max_le_max le_rfl (mul_le_mul_of_nonneg_right hcast hc)
    · exact le_trans (by norm_num [COMMISSION_MIN]) (le_max_left _ _)
    · exact max_le_max le_rfl (mul_le_mul_of_nonneg_right hcast hc)
    · exact le_max_left _ _
    · exact le_max_left _ _
  · refine ⟨?_, ?_, ?_, ?_, fun h => absurd h hp1, ?_⟩ <;>
      simp only [entry_commission, exit_commission, if_neg hp1]
    · exact mul_nonneg (mul_nonneg hp hcast1) hlow
    · exact mul_le_mul_of_nonneg_right
        (mul_le_mul_of_nonneg_left hcast hp) hlow
    · exact mul_nonneg (mul_nonneg hep hcast1) hlow
    · exact mul_le_mul_of_nonneg_right
        (mul_le_mul_of_nonneg_left hcast hep) hlow

/-- Witness for `commission_properties` at a concrete input. -/
theorem commission_properties_witness :
    COMMISSION_MIN ≤ entry_commission 2 1 ∧
    entry_commission 2 1 ≤ entry_commission 2 5 :=
  ⟨((commission_properties 2 2 1 5 (by norm_num) (by norm_num) (by norm_num)
      (by norm_num)).2.2.2.2.1 (by norm_num)).1,
   (commission_properties 2 2 1 5 (by norm_num) (by norm_num) (by norm_num)
      (by norm_num)).2.1⟩

/-! ## Claim C1: execute_trade entry gating -/

/-- A tracked SUBMITTED position used as a concrete fixture. -/
def posVHUB : Position :=
  { entry_price := 5, shares := 100, tp_price := 6, sl_price := 4,
    parent_id := 7, tp_id := 8, sl_id := 9, status := "SUBMITTED", time := 0 }

/-- An engine already tracking a position for "VHUB". -/
def engVHUB : ExecutionEngine :=
  { positions := [("VHUB", posVHUB)],
    order_to_symbol := [(7, "VHUB"), (8, "VHUB"), (9, "VHUB")] }

/-- An engine whose trade history shows `MAX_CONSECUTIVE_LOSSES` straight
losing trades. -/
def engLosses : ExecutionEngine :=
  { trade_history := [.closed "VHUB" "SL" 10 1 100 0, .closed "SXTC" "SL" 10 1 100 0] }

/-- An engine with "SXTC" blacklisted. -/
def engBlack : ExecutionEngine := { blacklist := ["SXTC"] }

/-- Claim C1 as stated is false twice over: with an active position for the
symbol, `execute_trade` returns **true** (not false) while submitting
nothing, and there is no consecutive-loss kill switch — after
`MAX_CONSECUTIVE_LOSSES` straight losing trades a fresh symbol is still
accepted. -/
theorem execute_trade_counterexample :
    execute_trade engVHUB "VHUB" 10 0 = (true, engVHUB) ∧
    engLosses.trade_history.length = MAX_CONSECUTIVE_LOSSES ∧
    (execute_trade engLosses "DKI" 10 0).1 = true := by
  have h3 : ¬ pyInt ((1000 : ℚ) / 10) ≤ 0 := by norm_num [pyInt]
  refine ⟨rfl, rfl, ?_⟩
  simp [execute_trade, engLosses, slookup, h3]

/-- Amended claim C1: `execute_trade` returns true and changes nothing when
the symbol already has a tracked position; returns false and changes
nothing when the symbol is blacklisted, or when the integer share count
from the fixed per-trade investment is ≤ 0; otherwise it submits three
bracket orders, records a position with status "SUBMITTED", and returns
true.  There is no consecutive-loss kill switch: acceptance is independent
of the trade history. -/
theorem execute_trade_characterization (s : ExecutionEngine) (sym : String)
    (p : ℚ) (now : Int) :
    ((slookup s.positions sym).isSome → execute_trade s sym p now = (true, s)) ∧
    (slookup s.positions sym = none → sym ∈ s.blacklist →
      execute_trade s sym p now = (false, s)) ∧
    (slookup s.positions sym = none → sym ∉ s.blacklist →
      pyInt (s.investment_per_trade / p) ≤ 0 →
      execute_trade s sym p now = (false, s)) ∧
    (slookup s.positions sym = none → sym ∉ s.blacklist →
      0 < pyInt (s.investment_per_trade / p) →
      (execute_trade s sym p now).1 = true ∧
      (∃ pos, slookup (execute_trade s sym p now).2.positions sym = some pos ∧
        pos.status = "SUBMITTED" ∧ pos.entry_price = p ∧
        pos.shares = pyInt (s.investment_per_trade / p)) ∧
      (execute_trade s sym p now).2.placed.length = s.placed.length + 3 ∧
      (execute_trade s sym p now).2.blacklist = s.blacklist ∧
      (execute_trade s sym p now).2.trade_history = s.trade_history) ∧
    (∀ h : List TradeRecord,
      (execute_trade { s with trade_history := h } sym p now).1 =
        (execute_trade s sym p now).1) := by
  refine ⟨?_, ?_, ?_, ?_, ?_⟩
  · intro h
    simp [execute_trade, h]
  · intro h1 h2
    simp [execute_trade, h1, h2]
  · intro h1 h2 h3
    simp [execute_trade, h1, h2, h3]
  · intro h1 h2 h3
    have h3' : ¬ pyInt (s.investment_per_trade / p) ≤ 0 := not_le.2 h3
    have hlook : slookup (execute_trade s sym p now).2.positions sym =
        some { entry_price := p, shares := pyInt (s.investment_per_trade / p),
               tp_price := pyRound2 (p * (1 + s.tp_pct / 100)),
               sl_price := pyRound2 (p * (1 - s.sl_pct / 100)),
               parent_id := s.next_order_id, tp_id := s.next_order_id + 1,
               sl_id := s.next_order_id + 2, status := "SUBMITTED",
               actual_entry_price := none, time := now } := by
      simp [execute_trade, h1, h2, h3', slookup_ssetKey_self]
    refine ⟨?_, ⟨_, hlook, rfl, rfl, rfl⟩, ?_, ?_, ?_⟩ <;>
      simp [execute_trade, h1, h2, h3']
  · intro h
    by_cases h1 : (slookup s.positions sym).isSome
    · simp [execute_trade, h1]
    · have h1' : slookup s.positions sym = none := by
        rcases hq : slookup s.positions sym with _ | v
        · rfl
        · rw [hq] at h1
          simp at h1
      by_cases h2 : sym ∈ s.blacklist
      · simp [execute_trade, h1', h2]
      · by_cases h3 : pyInt (s.investment_per_trade / p) ≤ 0
        · simp [execute_trade, h1', h2, h3]
        · simp [execute_trade, h1', h2, h3]

/-- Witness for `execute_trade_characterization` at concrete inputs. -/
theorem execute_trade_characterization_witness :
    execute_trade engBlack "SXTC" 10 0 = (false, engBlack) ∧
    (execute_trade ({} : ExecutionEngine) "DKI" 10 0).1 = true :=
  ⟨(execute_trade_characterization engBlack "SXTC" 10 0).2.1 rfl (by decide),
   ((execute_trade_characterization {} "DKI" 10 0).2.2.2.1 rfl (by decide)
      (by show (0 : Int) < pyInt ((1000 : ℚ) / 10); norm_num [pyInt])).1⟩

/-! ## Claims C3 and C6: the order-status handler -/

/-- The handler leaves the engine untouched for an order id it does not
track. -/
theorem on_order_status_untracked (s : ExecutionEngine) (oid : Int)
    (status : String) (f r p : ℚ) (pid now : Int)
    (h : alookup s.order_to_symbol oid = none) :
    _on_order_status s oid status f r p pid now = s := by
  simp [_on_order_status, h]

/-- Claim C3 as stated is false: a `Cancelled` status for the entry order
of a SUBMITTED position with a strictly positive filled quantity (10) still
discards the position and records a FAILED trade — the filled quantity is
not kept as the position's size. -/
theorem cancelled_partial_fill_counterexample :
    (_on_order_status engVHUB 7 "Cancelled" 10 0 (5 / 2) 0 0).positions = [] ∧
    (_on_order_status engVHUB 7 "Cancelled" 10 0 (5 / 2) 0 0).trade_history =
      [.failed "VHUB" "Cancelled" 5 0] ∧
    (0 : ℚ) < 10 := by
  refine ⟨rfl, rfl, by norm_num⟩

/-- Amended claim C3: on `Cancelled`/`Inactive`/`ApiCancelled` for a
tracked order of a position still in the SUBMITTED state, the handler
always discards the position and appends a FAILED record, regardless of the
filled quantity; the `filled` argument is never read. -/
theorem cancelled_submitted_always_discarded (s : ExecutionEngine)
    (oid : Int) (status : String) (f r p : ℚ) (pid now : Int)
    (sym : String) (pos : Position)
    (hmap : alookup s.order_to_symbol oid = some sym)
    (hpos : slookup s.positions sym = some pos)
    (hst : pos.status = "SUBMITTED")
    (hcancel : status = "Cancelled" ∨ status = "Inactive" ∨
      status = "ApiCancelled") :
    slookup (_on_order_status s oid status f r p pid now).positions sym =
      none ∧
    (_on_order_status s oid status f r p pid now).trade_history =
      s.trade_history ++ [.failed sym status pos.entry_price now] ∧
    (∀ f', _on_order_status s oid status f' r p pid now =
      _on_order_status s oid status f r p pid now) := by
  have hsf : ¬ status = "Filled" := by
    rcases hcancel with h | h | h <;> simp [h]
  have hcancel' : status = "Inactive" ∨ status = "Cancelled" ∨
      status = "ApiCancelled" := by tauto
  have hred : _on_order_status s oid status f r p pid now =
      _cleanup_position
        { s with trade_history := s.trade_history ++
            [.failed sym status pos.entry_price now] } sym := by
    simp [_on_order_status, hmap, hpos, hsf, hcancel', hst]
  refine ⟨?_, ?_, fun f' => rfl⟩
  · rw [hred]
    unfold _cleanup_position
    rw [if_pos (by simpa using Option.isSome_iff_exists.2 ⟨pos, hpos⟩)]
    exact slookup_filter_self _ _
  · rw [hred]
    unfold _cleanup_position
    by_cases hg : (slookup s.positions sym).isSome
    · rw [if_pos (by simpa using hg)]
    · rw [if_neg (by simpa using hg)]

/-- Witness for `cancelled_submitted_always_discarded` at a concrete
input. -/
theorem cancelled_submitted_always_discarded_witness :
    slookup (_on_order_status engVHUB 9 "Inactive" 0 0 0 0 0).positions
      "VHUB" = none :=
  (cancelled_submitted_always_discarded engVHUB 9 "Inactive" 0 0 0 0 0
    "VHUB" posVHUB rfl rfl rfl (Or.inr (Or.inl rfl))).1

/-- Claim C6: delivering a `Filled` event for an order id the engine no
longer tracks (the position already closed and cleaned up) changes nothing;
consequently a second delivery of the `Filled` exit event that closed a
position is a no-op. -/
theorem filled_event_idempotent :
    (∀ (s : ExecutionEngine) (oid : Int) (status : String) (f r p : ℚ)
      (pid now : Int), alookup s.order_to_symbol oid = none →
      _on_order_status s oid status f r p pid now = s) ∧
    (∀ (s : ExecutionEngine) (oid : Int) (f r p : ℚ) (pid now : Int)
      (sym : String) (pos : Position),
      (s.order_to_symbol.map Prod.fst).Nodup →
      alookup s.order_to_symbol oid = some sym →
      slookup s.positions sym = some pos →
      (oid = pos.tp_id ∨ oid = pos.sl_id) →
      _on_order_status (_on_order_status s oid "Filled" f r p pid now) oid
          "Filled" f r p pid now =
        _on_order_status s oid "Filled" f r p pid now ∧
      (_on_order_status s oid "Filled" f r p pid now).trade_history.length =
        s.trade_history.length + 1) := by
  constructor
  · exact fun s oid status f r p pid now h =>
      on_order_status_untracked s oid status f r p pid now h
  · intro s oid f r p pid now sym pos hnd hmap hpos hexit
    by_cases h1 : oid = pos.parent_id ∧ ¬ pos.status = "OPEN"
    · obtain ⟨hpar, hopen⟩ := h1
      subst hpar
      have hred : _on_order_status s pos.parent_id "Filled" f r p pid now =
          _cleanup_position
            { s with
                positions := ssetKey s.positions sym
                  { pos with status := "OPEN", actual_entry_price := some p },
                trade_history := s.trade_history ++
                  [.closed sym (if pos.parent_id = pos.tp_id then "TP" else "SL")
                    ((some p).getD pos.entry_price) p pos.shares now] } sym := by
        simp [_on_order_status, hmap, hpos, hopen, hexit]
      have hsome : (slookup (ssetKey s.positions sym
          { pos with status := "OPEN", actual_entry_price := some p })
            sym).isSome := by
        rw [slookup_ssetKey_self]
        rfl
      constructor
      · apply on_order_status_untracked
        rw [hred]
        unfold _cleanup_position
        rw [if_pos (by simpa using hsome)]
        exact alookup_filter_value _ _ _ hnd hmap
      · rw [hred]
        unfold _cleanup_position
        rw [if_pos (by simpa using hsome)]
        simp
    · have hred : _on_order_status s oid "Filled" f r p pid now =
          _cleanup_position
            { s with trade_history := s.trade_history ++
                [.closed sym (if oid = pos.tp_id then "TP" else "SL")
                  (pos.actual_entry_price.getD pos.entry_price) p pos.shares
                  now] } sym := by
        simp [_on_order_status, hmap, hpos, h1, hexit]
      have hsome : (slookup s.positions sym).isSome := by
        rw [hpos]
        rfl
      constructor
      · apply on_order_status_untracked
        rw [hred]
        unfold _cleanup_position
        rw [if_pos (by simpa using hsome)]
        exact alookup_filter_value _ _ _ hnd hmap
      · rw [hred]
        unfold _cleanup_position
        rw [if_pos (by simpa using hsome)]
        simp

/-- Witness for `filled_event_idempotent` at concrete inputs. -/
theorem filled_event_idempotent_witness :
    _on_order_status {} 5 "Filled" 1 0 2 0 0 = {} ∧
    (_on_order_status engVHUB 8 "Filled" 100 0 6 0 0).trade_history.length =
      1 :=
  ⟨filled_event_idempotent.1 {} 5 "Filled" 1 0 2 0 0 rfl,
   (filled_event_idempotent.2 engVHUB 8 100 0 6 0 0 "VHUB" posVHUB
     (by decide) rfl rfl (Or.inl rfl)).2⟩

/-! ## Claims C2 and C7: the state-machine drivers -/

/-- Any post-warm-up pass over the runner's state machine dies at the
`executor.get_position` attribute lookup, leaving the monitor as already
mutated. -/
theorem psm_after_warmup_error (m : SymbolMonitor) (ex : ExecutorOracle)
    (now : Int) :
    _psm_after_warmup m ex now = (m, some (.attributeError "get_position")) := by
  have hget : hasEngineMethod "get_position" = false := by decide
  simp [_psm_after_warmup, hget]

/-- A monitor already in IDLE and an oracle (never reached). -/
def monIdle : SymbolMonitor := { symbol := "VHUB", state := "IDLE" }

/-- A warming-up monitor. -/
def monWarm : SymbolMonitor := { symbol := "VHUB", state := "WARMUP" }

/-- A trivial executor oracle for the dead branches. -/
def oracleNone : ExecutorOracle :=
  { get_position := fun _ => none, execute_entry := fun _ _ _ _ => false }

/-- Claim C2: the runner calls `executor.get_position` on every update of a
monitor that has left WARMUP (and `execute_entry`/`execute_exit` on the
confirm/exit paths), but `ExecutionEngine` defines none of those methods —
it defines `execute_trade` and `is_position_active` instead — so every
post-warm-up update raises `AttributeError` with the FSM state unchanged,
and the realtime state machine can never reach ARMED, SUBMITTING or
IN_TRADE. -/
theorem runner_attribute_error :
    hasEngineMethod "get_position" = false ∧
    hasEngineMethod "execute_entry" = false ∧
    hasEngineMethod "execute_exit" = false ∧
    hasEngineMethod "execute_trade" = true ∧
    hasEngineMethod "is_position_active" = true ∧
    (∀ (m : SymbolMonitor) (ex : ExecutorOracle) (now : Int),
      m.state ≠ "WARMUP" →
      (_process_state_machine m ex now).2 =
        some (.attributeError "get_position") ∧
      (_process_state_machine m ex now).1.state = m.state) ∧
    (∀ (m : SymbolMonitor) (ex : ExecutorOracle) (now : Int),
      m.state = "WARMUP" ∨ m.state = "IDLE" →
      (_process_state_machine m ex now).1.state = "WARMUP" ∨
      (_process_state_machine m ex now).1.state = "IDLE") := by
  refine ⟨by decide, by decide, by decide, by decide, by decide, ?_, ?_⟩
  · intro m ex now h
    constructor <;> simp [_process_state_machine, h, psm_after_warmup_error]
  · intro m ex now h
    rcases h with h | h
    · by_cases hw : (WARMUP_MIN_1S_BARS ≤ m.bars_1s.length ∧
          WARMUP_MIN_5S_BARS ≤ m.bars_5s.length) ∨
          WARMUP_FALLBACK_SECONDS ≤ now - m.warmup_start_time
      · right
        simp [_process_state_machine, h, hw, psm_after_warmup_error]
      · left
        simp [_process_state_machine, h, hw]
    · right
      have h' : m.state ≠ "WARMUP" := by
        rw [h]
        decide
      simp [_process_state_machine, h, h', psm_after_warmup_error]

/-- Witness for `runner_attribute_error` at concrete inputs. -/
theorem runner_attribute_error_witness :
    (_process_state_machine monIdle oracleNone 0).2 =
      some (.attributeError "get_position") ∧
    (_process_state_machine monIdle oracleNone 0).1.state = "IDLE" :=
  ⟨(runner_attribute_error.2.2.2.2.2.1 monIdle oracleNone 0 (by decide)).1,
   (runner_attribute_error.2.2.2.2.2.1 monIdle oracleNone 0 (by decide)).2⟩

/-- A backtest engine freshly armed, inside the arm timeout, with no
confirm bar. -/
def btArmed : BacktestEngine :=
  { symbol := "VHUB", state := "ARMED", arm_time := 1000,
    market_data := { timestamp := 1000 } }

/-- Claim C7 as stated is false: a single invocation of the backtest step
on an ARMED engine inside the arm timeout evaluates two transition checks
of the current state (the arm-timeout check and the confirm check), not
exactly one. -/
theorem single_transition_check_counterexample :
    (_process_logic btArmed 0).2.1 = ["ARM_TIMEOUT", "CONFIRM_5S"] ∧
    ((_process_logic btArmed 0).2.1).length ≠ 1 := by
  refine ⟨?_, ?_⟩ <;>
    simp [_process_logic, btArmed, check_confirm_5s, check_no_fade] <;>
    norm_num [ARM_TIMEOUT_SECONDS]

/-- The one-step transition relation of the spec's state diagram that the
backtest driver can take in a single invocation. -/
def btTransition (a b : String) : Prop :=
  (a, b) ∈ ([("IDLE", "ARMED"), ("ARMED", "IDLE"), ("ARMED", "IN_TRADE"),
    ("IN_TRADE", "IDLE")] : List (String × String))

/-- Amended claim C7: the state advances by at most one transition per
invocation — the backtest step either keeps its state or takes exactly one
edge of the diagram (though the ARMED state may evaluate both of its
outgoing transition checks in one invocation), and a realtime monitor in
WARMUP either stays in WARMUP or becomes IDLE and then raises
`AttributeError` before the shock check, so it can never also become ARMED
in the same update. -/
theorem at_most_one_advance :
    (∀ (e : BacktestEngine) (now : Int),
      (_process_logic e now).1.state = e.state ∨
      btTransition e.state (_process_logic e now).1.state) ∧
    (∀ (m : SymbolMonitor) (ex : ExecutorOracle) (now : Int),
      m.state = "WARMUP" →
      ((_process_state_machine m ex now).1.state = "WARMUP" ∧
        (_process_state_machine m ex now).2 = none) ∨
      ((_process_state_machine m ex now).1.state = "IDLE" ∧
        (_process_state_machine m ex now).2 =
          some (.attributeError "get_position"))) := by
  constructor
  · intro e now
    by_cases h1 : e.state = "IDLE"
    · by_cases h2 : is_in_window e.market_data.timestamp = true
      · by_cases h3 : e.market_data.bars_1s = [] ∧
            ¬ e.market_data.bars_5s = []
        · simp [_process_logic, h1, h2, h3]
        · by_cases h4 : (check_shock_1s e.market_data).1 = true
          · simp +decide [_process_logic, h1, h2, h3, h4, btTransition]
          · simp [_process_logic, h1, h2, h3, h4]
      · simp [_process_logic, h1, h2]
    · by_cases h5 : e.state = "ARMED"
      · by_cases h6 : ARM_TIMEOUT_SECONDS <
            (e.market_data.timestamp : ℚ) - (e.arm_time : ℚ)
        · simp +decide [_process_logic, h1, h5, h6, btTransition]
        · by_cases h7 : (check_confirm_5s e.market_data).1 = true ∧
              check_no_fade e.market_data = true
          · by_cases h8 : 0 < pyInt (INVESTMENT_PER_TRADE / e.market_data.ask)
            · simp +decide [_process_logic, h1, h5, h6, h7, h8, btTransition]
            · simp [_process_logic, h1, h5, h6, h7, h8]
          · simp [_process_logic, h1, h5, h6, h7]
      · by_cases h9 : e.state = "IN_TRADE"
        · by_cases h10 : (check_exit e.market_data e.entry_price e.stop_price
              e.entry_time e.R now).1 = true
          · simp +decide [_process_logic, h1, h5, h9, h10, btTransition]
          · simp [_process_logic, h1, h5, h9, h10]
        · simp [_process_logic, h1, h5, h9]
  · intro m ex now h
    by_cases hw : (WARMUP_MIN_1S_BARS ≤ m.bars_1s.length ∧
        WARMUP_MIN_5S_BARS ≤ m.bars_5s.length) ∨
        WARMUP_FALLBACK_SECONDS ≤ now - m.warmup_start_time
    · right
      constructor <;>
        simp [_process_state_machine, h, hw, psm_after_warmup_error]
    · left
      constructor <;> simp [_process_state_machine, h, hw]

/-- Witness for `at_most_one_advance` at concrete inputs. -/
theorem at_most_one_advance_witness :
    ((_process_logic btArmed 0).1.state = btArmed.state ∨
      btTransition btArmed.state (_process_logic btArmed 0).1.state) ∧
    (((_process_state_machine monWarm oracleNone 500).1.state = "WARMUP" ∧
        (_process_state_machine monWarm oracleNone 500).2 = none) ∨
      ((_process_state_machine monWarm oracleNone 500).1.state = "IDLE" ∧
        (_process_state_machine monWarm oracleNone 500).2 =
          some (.attributeError "get_position"))) :=
  ⟨at_most_one_advance.1 btArmed 0,
   at_most_one_advance.2 monWarm oracleNone 500 rfl⟩

end Premarket
